import Mathlib

/-
Verification of the ETL pipeline in `src/app.py` (Flask backend that extracts
ledger rows from uploaded images/PDFs with a multimodal model and persists them
into a PostgreSQL table).

The embedding below translates the Python source.  JSON values produced by
`json.loads` are modelled by `JValue`; the fragment of `json.loads` actually
exercised by this code path (objects, arrays, strings, integers, booleans,
null) is implemented as an executable recursive-descent parser.  Database
effects are modelled by an oracle `DBEnv` saying which external calls succeed,
together with an explicit transaction state (pending vs. committed rows) that
mirrors psycopg2's semantics: `execute` adds to the open transaction,
`commit` makes the open transaction durable, `rollback` discards the whole
open transaction.
-/

set_option autoImplicit false

namespace App

/-- Values that `json.loads` can produce, restricted to the fragment this
application exercises (no fractional numbers flow through any claim). -/
inductive JValue where
  | null
  | bool (b : Bool)
  | int (n : Int)
  | str (s : String)
  | arr (xs : List JValue)
  | obj (fields : List (String × JValue))

/-- A parsed JSON object body, as used for one extracted record. -/
abbrev JFields := List (String × JValue)

/-- Python `record.get(key)`: the stored value, or `None` (modelled `JValue.null`)
when the key is absent.  A stored JSON `null` is also `None`, so both collapse. -/
def pyGet (r : JFields) (k : String) : JValue :=
  (r.lookup k).getD JValue.null

/-- The nine SQL parameters read from one record at `app.py` lines 86-94. -/
structure MappedRow where
  DATE : JValue
  PARTICULARS : JValue
  Voucher_BillNo : JValue
  RECEIPTS_Quantity : JValue
  RECEIPTS_Amount : JValue
  ISSUED_Quantity : JValue
  ISSUED_Amount : JValue
  BALANCE_Quantity : JValue
  BALANCE_Amount : JValue

/-- Lines 86-94 of `app.py`: each column value is `record.get(<key>)`, with no
coercion of any kind; an absent key yields `None` (SQL `NULL`). -/
def mapRecord (record : JFields) : MappedRow where
  DATE := pyGet record "DATE"
  PARTICULARS := pyGet record "PARTICULARS"
  Voucher_BillNo := pyGet record "Voucher_BillNo"
  RECEIPTS_Quantity := pyGet record "RECEIPTS_Quantity"
  RECEIPTS_Amount := pyGet record "RECEIPTS_Amount"
  ISSUED_Quantity := pyGet record "ISSUED_Quantity"
  ISSUED_Amount := pyGet record "ISSUED_Amount"
  BALANCE_Quantity := pyGet record "BALANCE_Quantity"
  BALANCE_Amount := pyGet record "BALANCE_Amount"

/-- Python slicing `v[:30]` (line 96) succeeds exactly on sliceable values:
JSON strings and arrays.  On `None`, numbers, booleans and dicts it raises
`TypeError`. -/
def sliceable : JValue → Bool
  | JValue.str _ => true
  | JValue.arr _ => true
  | _ => false

/-- Whitespace skipping of the JSON lexer. -/
def skipWs : List Char → List Char
  | c :: cs => if c = ' ' ∨ c = '\n' ∨ c = '\t' ∨ c = '\r' then skipWs cs else c :: cs
  | [] => []

/-- The short JSON string escapes, escape letter paired with its decoded
character (`\u` escapes are outside the modelled fragment). -/
def escTable : List (Char × Char) :=
  [('"', '"'), ('\\', '\\'), ('/', '/'), ('n', '\n'), ('t', '\t'),
   ('r', '\r'), ('b', Char.ofNat 8), ('f', Char.ofNat 12)]

/-- Decode one short JSON string escape. -/
def escChar (c : Char) : Option Char :=
  escTable.lookup c

/-- Body of a JSON string literal, after the opening quote; returns the decoded
string and the input following the closing quote. -/
def parseStringBody : List Char → Option (String × List Char)
  | [] => none
  | c :: cs =>
    if c = '"' then some ("", cs)
    else if c = '\\' then
      match cs with
      | [] => none
      | e :: cs2 =>
        match escChar e with
        | none => none
        | some d =>
          match parseStringBody cs2 with
          | none => none
          | some (s, rest) => some (⟨d :: s.data⟩, rest)
    else
      match parseStringBody cs with
      | none => none
      | some (s, rest) => some (⟨c :: s.data⟩, rest)

/-- Longest digit run at the front of the input. -/
def takeDigits : List Char → List Char × List Char
  | c :: cs =>
    if c.isDigit then
      let p := takeDigits cs
      (c :: p.1, p.2)
    else ([], c :: cs)
  | [] => ([], [])

/-- Decimal value of a digit run. -/
def digitsToNat (ds : List Char) : Nat :=
  ds.foldl (fun a c => a * 10 + (c.toNat - 48)) 0

/-- Rejects a fractional/exponent tail: non-integer JSON numbers are outside
the modelled fragment (no claim feeds one through the parser). -/
def intNumTail (n : Int) : List Char → Option (JValue × List Char)
  | c :: r => if c = '.' ∨ c = 'e' ∨ c = 'E' then none else some (JValue.int n, c :: r)
  | [] => some (JValue.int n, [])

/-- A JSON number at the front of the input (integer fragment only). -/
def parseNumberFrom (cs : List Char) : Option (JValue × List Char) :=
  match cs with
  | '-' :: rest =>
    match takeDigits rest with
    | ([], _) => none
    | (ds, r) => intNumTail (-(digitsToNat ds : Int)) r
  | _ =>
    match takeDigits cs with
    | ([], _) => none
    | (ds, r) => intNumTail (digitsToNat ds) r

/-- Matches an expected literal character sequence. -/
def expectLit : List Char → List Char → Option (List Char)
  | [], cs => some cs
  | _ :: _, [] => none
  | e :: es, c :: cs => if c = e then expectLit es cs else none

mutual

/-- A JSON value at the front of the input (fuel-indexed recursive descent). -/
def parseVal : Nat → List Char → Option (JValue × List Char)
  | 0, _ => none
  | fuel + 1, cs0 =>
    match skipWs cs0 with
    | [] => none
    | c :: rest =>
      if c = '"' then
        match parseStringBody rest with
        | none => none
        | some (s, r) => some (JValue.str s, r)
      else if c = '\x7b' then
        match skipWs rest with
        | '\x7d' :: r2 => some (JValue.obj [], r2)
        | cs2 =>
          match parseObjItems fuel cs2 with
          | none => none
          | some (fs, r2) => some (JValue.obj fs, r2)
      else if c = '[' then
        match skipWs rest with
        | ']' :: r2 => some (JValue.arr [], r2)
        | cs2 =>
          match parseArrItems fuel cs2 with
          | none => none
          | some (xs, r2) => some (JValue.arr xs, r2)
      else if c = 't' then
        match expectLit ['r', 'u', 'e'] rest with
        | none => none
        | some r => some (JValue.bool true, r)
      else if c = 'f' then
        match expectLit ['a', 'l', 's', 'e'] rest with
        | none => none
        | some r => some (JValue.bool false, r)
      else if c = 'n' then
        match expectLit ['u', 'l', 'l'] rest with
        | none => none
        | some r => some (JValue.null, r)
      else parseNumberFrom (c :: rest)

/-- One or more comma-separated array elements up to the closing bracket. -/
def parseArrItems : Nat → List Char → Option (List JValue × List Char)
  | 0, _ => none
  | fuel + 1, cs =>
    match parseVal fuel cs with
    | none => none
    | some (v, r) =>
      match skipWs r with
      | ',' :: r2 =>
        match parseArrItems fuel r2 with
        | none => none
        | some (vs, r3) => some (v :: vs, r3)
      | ']' :: r2 => some ([v], r2)
      | _ => none

/-- One or more comma-separated object members up to the closing brace. -/
def parseObjItems : Nat → List Char → Option (JFields × List Char)
  | 0, _ => none
  | fuel + 1, cs =>
    match skipWs cs with
    | '"' :: r =>
      match parseStringBody r with
      | none => none
      | some (k, r1) =>
        match skipWs r1 with
        | ':' :: r2 =>
          match parseVal fuel r2 with
          | none => none
          | some (v, r3) =>
            match skipWs r3 with
            | ',' :: r4 =>
              match parseObjItems fuel r4 with
              | none => none
              | some (fs, r5) => some ((k, v) :: fs, r5)
            | '\x7d' :: r4 => some ([(k, v)], r4)
            | _ => none
        | _ => none
    | _ => none

end

/-- Python `json.loads` on the modelled fragment: a single JSON document with
nothing but whitespace after it, else a `JSONDecodeError` (modelled `none`). -/
def json_loads (s : String) : Option JValue :=
  match parseVal (2 * s.data.length + 2) s.data with
  | none => none
  | some (v, rest) => if skipWs rest = [] then some v else none

/-- Python `str.strip()` whitespace. -/
def pyIsSpace (c : Char) : Bool :=
  c = ' ' ∨ c = '\n' ∨ c = '\t' ∨ c = '\r' ∨ c = '\x0b' ∨ c = '\x0c'

/-- Python `s.strip()`: remove leading and trailing whitespace. -/
def pyStrip (s : String) : String :=
  ⟨((s.data.dropWhile pyIsSpace).reverse.dropWhile pyIsSpace).reverse⟩

/-- Python `s.startswith(p)`. -/
def pyStartsWith (s p : String) : Bool :=
  p.data.isPrefixOf s.data

/-- Python `s.endswith(p)`. -/
def pyEndsWith (s p : String) : Bool :=
  p.data.reverse.isPrefixOf s.data.reverse

/-- Python `s[n:]` for `n ≥ 0`. -/
def pySliceFrom (s : String) (n : Nat) : String :=
  ⟨s.data.drop n⟩

/-- Python `s[:-n]` for `n > 0`: all but the last `n` characters. -/
def pySliceDropLast (s : String) (n : Nat) : String :=
  ⟨s.data.take (s.data.length - n)⟩

/-- Lines 267-283 of `app.py`: the response text is stripped; a ```` ```json
... ``` ```` fence is removed (`raw_json_text[len('```json'):-len('```')]`);
text already starting with `[` or `\x7b` is kept as-is.  The final fallback
(line 276) executes `re.search(...)`, but `re` is never imported in `app.py`,
so that branch raises `NameError`, which the handler at line 307 catches,
making the whole extraction return `None` (modelled as `none` here). -/
def clean_raw_text (s : String) : Option String :=
  let raw := pyStrip s
  if pyStartsWith raw "```json" && pyEndsWith raw "```" then
    some (pyStrip (pySliceDropLast (pySliceFrom raw 7) 3))
  else if pyStartsWith raw "[" || pyStartsWith raw "\x7b" then
    some raw
  else
    none

/-- Lines 267-306 of `app.py`, from the model-response text to the value
returned by `extract_json_from_images_with_gemini`: clean the text (`none`
propagates the caught `NameError` of the dead fallback branch), reject an
empty cleaned text (line 284), `json.loads` it (a `JSONDecodeError` returns
`None`, line 302), keep a list as-is, wrap a single object in a list, and
reject any other parsed type (line 299). -/
def parse_model_response (s : String) : Option (List JValue) :=
  match clean_raw_text s with
  | none => none
  | some t =>
    if t = "" then none
    else
      match json_loads t with
      | none => none
      | some (JValue.arr xs) => some xs
      | some (JValue.obj o) => some [JValue.obj o]
      | some _ => none

/-- Oracle for the external PostgreSQL calls made by
`insert_data_into_postgres`: whether `psycopg2.connect` (line 56) succeeds,
whether the `CREATE TABLE IF NOT EXISTS` statement (line 75) succeeds, and
which row inserts (line 108) succeed.  `commit` and `rollback` themselves are
modelled as non-failing. -/
structure DBEnv where
  connectOk : Bool
  createTableOk : Bool
  insertOk : MappedRow → Bool

/-- Python exceptions that can escape the insert loop body. -/
inductive PyErr where
  /-- a `psycopg2.Error` -/
  | pgError
  /-- `TypeError`, e.g. `particulars_val[:30]` on a non-sliceable value (line 96) -/
  | typeError
  /-- `AttributeError`, e.g. `record.get` on a non-dict record (line 86) -/
  | attrError

/-- Observable outcome of one call to `insert_data_into_postgres`:
whether a connection was opened, whether cursor/connection were closed by the
`finally` block (lines 134-136), the rows durably committed, the value of the
`insert_count` counter when the final commit (line 120) is reached, and the
exception escaping the call, if any (the source catches `psycopg2.Error` and
`Exception`, so no modelled error ever escapes). -/
structure WriterResult where
  connOpened : Bool
  connClosed : Bool
  curClosed : Bool
  committed : List MappedRow
  insertCount : Nat
  raised : Option PyErr

/-- The `for` loop of lines 85-119, inside an open transaction.  State:
`pending` = rows executed in the open transaction but not yet committed,
`count` = the `insert_count` counter.  psycopg2 semantics: a successful
`cur.execute` adds the row to the open transaction; on `psycopg2.Error` the
handler at lines 115-118 calls `conn.rollback()`, which discards the WHOLE
open transaction, i.e. every pending row, not just the failed one.  The
progress print at line 96 slices `particulars_val[:30]`, raising `TypeError`
on non-sliceable values; `record.get` at line 86 raises `AttributeError` on a
non-dict record; both escape the loop (only `psycopg2.Error` is caught inside
it). -/
def insertLoop (env : DBEnv) :
    List JValue → List MappedRow → Nat → Except PyErr (List MappedRow × Nat)
  | [], pending, count => Except.ok (pending, count)
  | r :: rest, pending, count =>
    match r with
    | JValue.obj fields =>
      let row := mapRecord fields
      if sliceable row.PARTICULARS then
        if env.insertOk row then
          insertLoop env rest (pending ++ [row]) (count + 1)
        else
          insertLoop env rest [] count
      else Except.error PyErr.typeError
    | _ => Except.error PyErr.attrError

/-- Lines 51-136 of `app.py`.  Branches, in source order: `psycopg2.connect`
raising leaves `conn = cur = None` and lands in the handler at line 126 (the
`finally` block then closes nothing); a failing `CREATE TABLE` lands in the
same handler after the connection was opened; an empty `data_list` returns
early at line 81 (through `finally`); otherwise the insert loop runs and
either every surviving pending row is committed at line 120, or an uncaught
`TypeError`/`AttributeError` from the loop lands in the `except Exception`
handler at line 130, which rolls back, so nothing is committed.  Every branch
returns normally: both `except` clauses swallow the error. -/
def insert_data_into_postgres (env : DBEnv) (data_list : List JValue) : WriterResult :=
  if !env.connectOk then
    { connOpened := false, connClosed := false, curClosed := false,
      committed := [], insertCount := 0, raised := none }
  else if !env.createTableOk then
    { connOpened := true, connClosed := true, curClosed := true,
      committed := [], insertCount := 0, raised := none }
  else if data_list.isEmpty then
    { connOpened := true, connClosed := true, curClosed := true,
      committed := [], insertCount := 0, raised := none }
  else
    match insertLoop env data_list [] 0 with
    | Except.ok (pending, count) =>
      { connOpened := true, connClosed := true, curClosed := true,
        committed := pending, insertCount := count, raised := none }
    | Except.error _ =>
      { connOpened := true, connClosed := true, curClosed := true,
        committed := [], insertCount := 0, raised := none }

/-- One uploaded file as seen by `process_uploaded_files`: its `filename`, and
the number of pages PyMuPDF reports when the file is a PDF (`pages` is unused
for any other file; rendering of recognized PDFs is modelled as succeeding). -/
structure UFile where
  filename : String
  pages : Nat

/-- Line 178: `filename.lower().endswith(('.png', '.jpg', '.jpeg', '.bmp', '.tiff'))`. -/
def isImageName (s : String) : Bool :=
  let l := ⟨s.data.map Char.toLower⟩
  pyEndsWith l ".png" || pyEndsWith l ".jpg" || pyEndsWith l ".jpeg" ||
    pyEndsWith l ".bmp" || pyEndsWith l ".tiff"

/-- Line 183: `filename.lower().endswith('.pdf')`. -/
def isPdfName (s : String) : Bool :=
  pyEndsWith ⟨s.data.map Char.toLower⟩ ".pdf"

/-- Lines 189-197: the scratch path written for each rendered PDF page; note
the path depends only on the page number, not on the source PDF. -/
def pdfPagePaths (pages : Nat) : List String :=
  (List.range pages).map (fun i => "/tmp/temp_pdf_page_" ++ toString i ++ ".jpg")

/-- The contribution of one uploaded file to `image_paths` (lines 176-203):
a recognized image is saved to `/tmp/<filename>` and contributes one path; a
recognized PDF contributes one rendered-page path per page, in page order;
any other file is skipped with a warning and contributes nothing. -/
def fileContribution (f : UFile) : List String :=
  if isImageName f.filename then ["/tmp/" ++ f.filename]
  else if isPdfName f.filename then pdfPagePaths f.pages
  else []

/-- Lines 173-204 of `app.py`: the accumulating loop over the uploaded files,
appending each file's contribution in input order. -/
def process_uploaded_files (files : List UFile) : List String :=
  files.flatMap fileContribution

/-- The scratch `temp_pdf_page_*` files written while normalizing `files`
(lines 194-195): one per rendered PDF page. -/
def tempPagesWritten (files : List UFile) : List String :=
  files.flatMap (fun f =>
    if isImageName f.filename then []
    else if isPdfName f.filename then pdfPagePaths f.pages
    else [])

/-- Observable outcome of one `/process` request (lines 318-364): HTTP status,
the `error` string of a failure body, the `data` payload of a success body,
whether the Gemini extraction call (line 350) was made, the result of the
Persistence Writer call when it was made (line 354), and the scratch
`temp_pdf_page_*` files still present when the handler finishes. -/
structure ProcessResult where
  status : Nat
  errorMsg : Option String
  payload : Option (List JValue)
  geminiCalled : Bool
  writerResult : Option WriterResult
  tempPagesRemaining : List String

/-- Lines 318-364 of `app.py`, the `/process` handler.  Parameters model the
request and environment: `hasFilePart` is `'file' in request.files` (line 321),
`files` the uploaded files, `apiKeySet` whether `GEMINI_API_KEY` is set
(line 336), `extract` the value returned by
`extract_json_from_images_with_gemini` for a given `image_paths` (line 350;
on a response text `t` this is `parse_model_response t`), and `env` the
database oracle.  `create_database_if_not_exists` (line 347) catches all its
own exceptions and returns nothing, so it is a no-op here.  Line 352 tests
Python truthiness: `None` and the empty list both take the `else` branch.
The cleanup loop at lines 360-363 sits after the `return` statements at lines
355 and 357, so it is unreachable: no branch ever deletes the scratch files. -/
def process_files (hasFilePart : Bool) (files : List UFile) (apiKeySet : Bool)
    (extract : List String → Option (List JValue)) (env : DBEnv) : ProcessResult :=
  if !hasFilePart then
    { status := 400, errorMsg := some "No file part in the request", payload := none,
      geminiCalled := false, writerResult := none, tempPagesRemaining := [] }
  else if files.isEmpty || files.all (fun f => f.filename == "") then
    { status := 400, errorMsg := some "No selected files", payload := none,
      geminiCalled := false, writerResult := none, tempPagesRemaining := [] }
  else
    let image_paths := process_uploaded_files files
    let written := tempPagesWritten files
    if image_paths.isEmpty then
      { status := 400, errorMsg := some "No valid image files processed", payload := none,
        geminiCalled := false, writerResult := none, tempPagesRemaining := written }
    else if !apiKeySet then
      { status := 500, errorMsg := some "GEMINI_API_KEY not set in environment", payload := none,
        geminiCalled := false, writerResult := none, tempPagesRemaining := written }
    else
      match extract image_paths with
      | some l =>
        if l.isEmpty then
          { status := 500, errorMsg := some "Failed to extract data from images", payload := none,
            geminiCalled := true, writerResult := none, tempPagesRemaining := written }
        else
          { status := 200, errorMsg := none, payload := some l,
            geminiCalled := true, writerResult := some (insert_data_into_postgres env l),
            tempPagesRemaining := written }
      | none =>
        { status := 500, errorMsg := some "Failed to extract data from images", payload := none,
          geminiCalled := true, writerResult := none, tempPagesRemaining := written }

/-! Concrete fixtures used by the theorems below. -/

/-- A database oracle on which every external call succeeds. -/
def envAllOk : DBEnv :=
  { connectOk := true, createTableOk := true, insertOk := fun _ => true }

/-- A database oracle on which exactly the row with `DATE = "d2"` violates a
column constraint, so its insert raises a `psycopg2.Error`. -/
def envSecondFails : DBEnv :=
  { connectOk := true, createTableOk := true,
    insertOk := fun row =>
      match row.DATE with
      | JValue.str "d2" => false
      | _ => true }

/-- Fields of the first record of the three-record batch. -/
def fieldsB1 : JFields := [("DATE", JValue.str "d1"), ("PARTICULARS", JValue.str "p1")]

/-- Fields of the second record of the three-record batch (the failing one). -/
def fieldsB2 : JFields := [("DATE", JValue.str "d2"), ("PARTICULARS", JValue.str "p2")]

/-- Fields of the third record of the three-record batch. -/
def fieldsB3 : JFields := [("DATE", JValue.str "d3"), ("PARTICULARS", JValue.str "p3")]

/-- The three-record batch for the per-record failure scenario. -/
def batch3 : List JValue := [JValue.obj fieldsB1, JValue.obj fieldsB2, JValue.obj fieldsB3]

/-- The spec's mapper example: quantity `null`, amount the string "12.5". -/
def recC3 : JFields :=
  [("PARTICULARS", JValue.str "p"),
   ("RECEIPTS_Quantity", JValue.null),
   ("RECEIPTS_Amount", JValue.str "12.5")]

/-- One extracted record carrying no identity key. -/
def recNoId : JFields := [("DATE", JValue.str "d1"), ("PARTICULARS", JValue.str "p1")]

/-- An extraction oracle returning exactly one record. -/
def extractOneRecord : List String → Option (List JValue) :=
  fun _ => some [JValue.obj recNoId]

/-- An upload set with a single recognized image. -/
def filesOneImage : List UFile := [{ filename := "page.png", pages := 0 }]

/-- An upload set with a single unrecognized file. -/
def filesUnrecognized : List UFile := [{ filename := "notes.txt", pages := 0 }]

/-- An upload set mixing an image, a two-page PDF and an unrecognized file. -/
def filesMixed : List UFile :=
  [{ filename := "a.png", pages := 0 },
   { filename := "b.pdf", pages := 2 },
   { filename := "notes.txt", pages := 5 }]

/-- An upload set with a single one-page PDF. -/
def filesOnePdf : List UFile := [{ filename := "doc.pdf", pages := 1 }]

/-! Helper lemmas. -/

/-- An upload set with neither recognized images nor PDFs normalizes to the
empty path list. -/
theorem process_uploaded_files_eq_nil_of_unrecognized (files : List UFile)
    (h : ∀ f ∈ files, isImageName f.filename = false ∧ isPdfName f.filename = false) :
    process_uploaded_files files = [] := by
  induction files with
  | nil => rfl
  | cons f fs ih =>
    have hf := h f (by simp)
    have hfs := ih (fun g hg => h g (by simp [hg]))
    simp [process_uploaded_files, fileContribution, hf.1, hf.2] at hfs ⊢
    exact hfs

/-- If the `/process` handler invoked the extraction client, then the request
had a file part, a nonempty selection, a nonempty normalized path list, and an
API key. -/
theorem process_reaches_extraction (hp : Bool) (files : List UFile) (key : Bool)
    (extract : List String → Option (List JValue)) (env : DBEnv)
    (hcalled : (process_files hp files key extract env).geminiCalled = true) :
    hp = true
      ∧ (files.isEmpty || files.all (fun f => f.filename == "")) = false
      ∧ (process_uploaded_files files).isEmpty = false
      ∧ key = true := by
  by_cases h1 : hp = true
  · by_cases h2 : (files.isEmpty || files.all (fun f => f.filename == "")) = true
    · simp [process_files, h1, h2] at hcalled
    · by_cases h3 : (process_uploaded_files files).isEmpty = true
      · simp [process_files, h1, h2, h3] at hcalled
      · by_cases h4 : key = true
        · exact ⟨h1, by simpa using h2, by simpa using h3, h4⟩
        · simp [process_files, h1, h2, h3, h4] at hcalled
  · simp [process_files, h1] at hcalled

/-! Claim theorems. -/

/-- C1: evaluating the Persistence Writer on a batch of three records where
only the second violates a column constraint: the per-row error handler's
`conn.rollback()` (line 118) discards the whole open transaction, including
the first record's pending insert, so only the third record is committed -
one persisted row, not the two (1st and 3rd) the claim states.  The writer
still returns normally and its counter even reports two executed inserts. -/
theorem insert_batch_second_fails_commits_only_third :
    (insert_data_into_postgres envSecondFails batch3).committed = [mapRecord fieldsB3]
      ∧ (insert_data_into_postgres envSecondFails batch3).committed.length ≠ 2
      ∧ (insert_data_into_postgres envSecondFails batch3).insertCount = 2
      ∧ (insert_data_into_postgres envSecondFails batch3).raised = none :=
  ⟨rfl, by decide, rfl, rfl⟩

/-- C2: any model-response text that, after stripping, is not ```json-fenced
and does not start with `[` or `\x7b` makes the extraction return `None`
(the fallback branch at line 276 references the never-imported `re`, raising
`NameError`, which the handler at line 307 turns into `None`). -/
theorem extraction_fails_without_json_shape (s : String)
    (h1 : (pyStartsWith (pyStrip s) "```json" && pyEndsWith (pyStrip s) "```") = false)
    (h2 : pyStartsWith (pyStrip s) "[" = false)
    (h3 : pyStartsWith (pyStrip s) "\x7b" = false) :
    parse_model_response s = none := by
  unfold parse_model_response clean_raw_text
  simp [h1, h2, h3]

/-- Witness for C2 at the spec's example input `no json here`. -/
theorem extraction_fails_without_json_shape_witness :
    (pyStartsWith (pyStrip "no json here") "```json"
        && pyEndsWith (pyStrip "no json here") "```") = false
      ∧ pyStartsWith (pyStrip "no json here") "[" = false
      ∧ pyStartsWith (pyStrip "no json here") "\x7b" = false
      ∧ parse_model_response "no json here" = none :=
  ⟨rfl, rfl, rfl, extraction_fails_without_json_shape "no json here" rfl rfl rfl⟩

/-- C3 counterexample: mapping the record with quantity `null` and amount the
string "12.5" leaves quantity `null` - it is not coerced to `0` - and passes
the amount through as the string "12.5". -/
theorem mapper_no_zero_default_cex :
    (mapRecord recC3).RECEIPTS_Quantity = JValue.null
      ∧ (mapRecord recC3).RECEIPTS_Quantity ≠ JValue.int 0
      ∧ (mapRecord recC3).RECEIPTS_Amount = JValue.str "12.5" :=
  ⟨rfl, fun h => JValue.noConfusion h, rfl⟩

/-- C3 amended: the mapper applies no type coercion and no zero default - each
declared column value is `record.get(<key>)` passed through unchanged, with
`null` for absent keys; in particular the example record persists with
quantity `NULL` and amount the string "12.5" as given. -/
theorem mapper_passes_values_through (record : JFields) :
    (mapRecord record).RECEIPTS_Quantity = pyGet record "RECEIPTS_Quantity"
      ∧ (mapRecord record).RECEIPTS_Amount = pyGet record "RECEIPTS_Amount"
      ∧ (mapRecord recC3).RECEIPTS_Quantity = JValue.null
      ∧ (mapRecord recC3).RECEIPTS_Amount = JValue.str "12.5" :=
  ⟨rfl, rfl, rfl, rfl⟩

/-- C4 counterexample: on a run whose single extracted record is successfully
inserted, the 200 response payload is the extracted record itself, which
carries no `Entry_ID` key - no generated identity was retrieved or attached
to it. -/
theorem response_lacks_identity_cex :
    (process_files true filesOneImage true extractOneRecord envAllOk).status = 200
      ∧ (insert_data_into_postgres envAllOk [JValue.obj recNoId]).committed = [mapRecord recNoId]
      ∧ (process_files true filesOneImage true extractOneRecord envAllOk).payload
          = some [JValue.obj recNoId]
      ∧ recNoId.lookup "Entry_ID" = none :=
  ⟨rfl, rfl, rfl, rfl⟩

/-- C4 amended: the writer retrieves and attaches no identities; whenever the
extraction stage yields a nonempty record list, the handler responds 200 with
the extracted record list exactly as extracted, for every database oracle -
in particular also for records whose individual inserts fail. -/
theorem response_payload_is_extracted_data (hp : Bool) (files : List UFile) (key : Bool)
    (extract : List String → Option (List JValue)) (env : DBEnv) (l : List JValue)
    (hx : extract (process_uploaded_files files) = some l) (hne : l ≠ [])
    (hcalled : (process_files hp files key extract env).geminiCalled = true) :
    (process_files hp files key extract env).payload = some l
      ∧ (process_files hp files key extract env).status = 200 := by
  obtain ⟨h1, h2, h3, h4⟩ := process_reaches_extraction hp files key extract env hcalled
  obtain ⟨a, as, rfl⟩ : ∃ a as, l = a :: as := by
    cases l with
    | nil => exact absurd rfl hne
    | cons a as => exact ⟨a, as, rfl⟩
  simp [process_files, h1, h2, h3, h4, hx]

/-- Witness for C4's amended theorem: a run where the record's insert fails,
yet the payload still is the extracted list. -/
theorem response_payload_is_extracted_data_witness :
    extractOneRecord (process_uploaded_files filesOneImage) = some [JValue.obj recNoId]
      ∧ [JValue.obj recNoId] ≠ ([] : List JValue)
      ∧ (process_files true filesOneImage true extractOneRecord
          { connectOk := true, createTableOk := true, insertOk := fun _ => false }).geminiCalled = true
      ∧ (process_files true filesOneImage true extractOneRecord
          { connectOk := true, createTableOk := true, insertOk := fun _ => false }).payload
          = some [JValue.obj recNoId]
      ∧ (process_files true filesOneImage true extractOneRecord
          { connectOk := true, createTableOk := true, insertOk := fun _ => false }).status = 200 := by
  refine ⟨rfl, by simp, rfl, ?_⟩
  exact response_payload_is_extracted_data true filesOneImage true extractOneRecord
    { connectOk := true, createTableOk := true, insertOk := fun _ => false }
    [JValue.obj recNoId] rfl (by simp) rfl

/-- C5: an upload set that is empty or contains only unrecognized file types
gets a 400 response and the extraction client is never invoked. -/
theorem empty_or_unrecognized_rejected (hp : Bool) (files : List UFile) (key : Bool)
    (extract : List String → Option (List JValue)) (env : DBEnv)
    (h : files = []
      ∨ ∀ f ∈ files, isImageName f.filename = false ∧ isPdfName f.filename = false) :
    (process_files hp files key extract env).status = 400
      ∧ (process_files hp files key extract env).geminiCalled = false := by
  by_cases h1 : hp = true
  · by_cases h2 : (files.isEmpty || files.all (fun f => f.filename == "")) = true
    · simp [process_files, h1, h2]
    · have hun : ∀ f ∈ files, isImageName f.filename = false ∧ isPdfName f.filename = false := by
        rcases h with h | h
        · subst h; simp at h2
        · exact h
      have hn : process_uploaded_files files = [] :=
        process_uploaded_files_eq_nil_of_unrecognized files hun
      simp [process_files, h1, h2, hn]
  · simp [process_files, h1]

/-- Witness for C5 at a one-file all-unrecognized upload set. -/
theorem empty_or_unrecognized_rejected_witness :
    (filesUnrecognized = []
        ∨ ∀ f ∈ filesUnrecognized, isImageName f.filename = false ∧ isPdfName f.filename = false)
      ∧ (process_files true filesUnrecognized true extractOneRecord envAllOk).status = 400
      ∧ (process_files true filesUnrecognized true extractOneRecord envAllOk).geminiCalled = false := by
  have h : filesUnrecognized = []
      ∨ ∀ f ∈ filesUnrecognized, isImageName f.filename = false ∧ isPdfName f.filename = false :=
    Or.inr (by decide)
  exact ⟨h, empty_or_unrecognized_rejected true filesUnrecognized true extractOneRecord envAllOk h⟩

/-- C6: the parser strips a ```json fence and yields the record list, and
wraps a bare JSON object into a single-element list. -/
theorem parser_fence_and_object_examples :
    parse_model_response "```json\n[\x7b\"a\":1\x7d]\n```"
        = some [JValue.obj [("a", JValue.int 1)]]
      ∧ parse_model_response "\x7b\"a\":1\x7d" = some [JValue.obj [("a", JValue.int 1)]] :=
  ⟨rfl, rfl⟩

/-- C7: for an upload set containing at least one recognized image, the
normalizer output length is the number of standalone recognized images plus
the total page count of the recognized PDFs, and the output is the in-order
concatenation of the per-file contributions (so input order and page order
are preserved); unrecognized files contribute nothing. -/
theorem normalizer_output_counts (files : List UFile)
    (_h : ∃ f ∈ files, isImageName f.filename = true) :
    (process_uploaded_files files).length
        = (files.filter (fun f => isImageName f.filename)).length
          + ((files.filter (fun f => !isImageName f.filename && isPdfName f.filename)).map
              UFile.pages).sum
      ∧ ∀ gs : List UFile,
          process_uploaded_files (files ++ gs)
            = process_uploaded_files files ++ process_uploaded_files gs := by
  constructor
  · clear _h
    induction files with
    | nil => rfl
    | cons f fs ih =>
      cases hi : isImageName f.filename with
      | true =>
        simp [process_uploaded_files, fileContribution, hi] at ih ⊢
        omega
      | false =>
        cases hpdf : isPdfName f.filename with
        | true =>
          simp [process_uploaded_files, fileContribution, pdfPagePaths, hi, hpdf] at ih ⊢
          omega
        | false =>
          simp [process_uploaded_files, fileContribution, hi, hpdf] at ih ⊢
          omega
  · intro gs
    simp [process_uploaded_files]

/-- Witness for C7 at an upload set with one image, one two-page PDF and one
unrecognized file: three inputs normalize to three paths (1 + 2). -/
theorem normalizer_output_counts_witness :
    (∃ f ∈ filesMixed, isImageName f.filename = true)
      ∧ (process_uploaded_files filesMixed).length
          = (filesMixed.filter (fun f => isImageName f.filename)).length
            + ((filesMixed.filter (fun f => !isImageName f.filename && isPdfName f.filename)).map
                UFile.pages).sum := by
  have h : ∃ f ∈ filesMixed, isImageName f.filename = true := by decide
  exact ⟨h, (normalizer_output_counts filesMixed h).1⟩

/-- C8: evaluating the handler on an upload of a one-page PDF: on the success
path (200) and on the extraction-failure path (500) alike, the rendered
scratch page `/tmp/temp_pdf_page_0.jpg` is still present when the handler
finishes - the cleanup loop at lines 360-363 sits after the `return`
statements at lines 355/357 and never runs. -/
theorem temp_pages_survive_handler :
    (process_files true filesOnePdf true extractOneRecord envAllOk).status = 200
      ∧ "/tmp/temp_pdf_page_0.jpg"
          ∈ (process_files true filesOnePdf true extractOneRecord envAllOk).tempPagesRemaining
      ∧ (process_files true filesOnePdf true (fun _ => none) envAllOk).status = 500
      ∧ "/tmp/temp_pdf_page_0.jpg"
          ∈ (process_files true filesOnePdf true (fun _ => none) envAllOk).tempPagesRemaining :=
  ⟨rfl, by decide, rfl, by decide⟩

/-- C9: `insert_data_into_postgres` returns normally on every input - both
`except` clauses swallow the exception - and the cursor and the connection are
closed (by the `finally` block) exactly on those paths on which a connection
was opened. -/
theorem insert_total_and_closes (env : DBEnv) (data_list : List JValue) :
    (insert_data_into_postgres env data_list).raised = none
      ∧ (insert_data_into_postgres env data_list).connClosed
          = (insert_data_into_postgres env data_list).connOpened
      ∧ (insert_data_into_postgres env data_list).curClosed
          = (insert_data_into_postgres env data_list).connOpened := by
  cases hc : env.connectOk with
  | false => simp [insert_data_into_postgres, hc]
  | true =>
    cases ht : env.createTableOk with
    | false => simp [insert_data_into_postgres, hc, ht]
    | true =>
      cases hd : data_list.isEmpty with
      | true => simp [insert_data_into_postgres, hc, ht, hd]
      | false =>
        cases hl : insertLoop env data_list [] 0 with
        | ok p => simp [insert_data_into_postgres, hc, ht, hd, hl]
        | error e => simp [insert_data_into_postgres, hc, ht, hd, hl]

/-- C10: when the extraction stage returns an empty record list (and was
actually invoked), the handler responds 500 with the extraction-failure error
body and the Persistence Writer is never called. -/
theorem empty_extraction_treated_as_failure (hp : Bool) (files : List UFile) (key : Bool)
    (extract : List String → Option (List JValue)) (env : DBEnv)
    (hx : extract (process_uploaded_files files) = some [])
    (hcalled : (process_files hp files key extract env).geminiCalled = true) :
    (process_files hp files key extract env).status = 500
      ∧ (process_files hp files key extract env).errorMsg
          = some "Failed to extract data from images"
      ∧ (process_files hp files key extract env).writerResult = none := by
  obtain ⟨h1, h2, h3, h4⟩ := process_reaches_extraction hp files key extract env hcalled
  simp [process_files, h1, h2, h3, h4, hx]

/-- Witness for C10: a request with one recognized image whose extraction
yields zero records. -/
theorem empty_extraction_treated_as_failure_witness :
    (fun (_ : List String) => some ([] : List JValue)) (process_uploaded_files filesOneImage)
        = some []
      ∧ (process_files true filesOneImage true (fun _ => some []) envAllOk).geminiCalled = true
      ∧ (process_files true filesOneImage true (fun _ => some []) envAllOk).status = 500
      ∧ (process_files true filesOneImage true (fun _ => some []) envAllOk).errorMsg
          = some "Failed to extract data from images"
      ∧ (process_files true filesOneImage true (fun _ => some []) envAllOk).writerResult = none := by
  refine ⟨rfl, rfl, ?_⟩
  exact empty_extraction_treated_as_failure true filesOneImage true
    (fun _ => some []) envAllOk rfl rfl

end App
